import Mathlib

/-!
Shallow embedding of the Falcor-Experiments render passes
(FocalGuiding, GuidedRayViz, MyTestPass) and proofs about the
claims of their specification.

Each pass is modelled as a pure state machine: the mutable C++ members
become a state structure, host-API side effects (clears, warnings,
binds, draw and ray-dispatch calls) become an explicit effect trace,
and a thrown exception or failed assertion becomes an error value.
Object identity (needed to distinguish "rebuilt" from "reused" GPU
objects) is modelled with a creation counter carried in the state:
every freshly created program / binding-table / vars object is stamped
with the counter at its creation and the counter is bumped.
-/

/-- A 3-component float vector; the exact float values the code uses
are dyadic, so rationals model them exactly. -/
structure Float3 where
  x : Rat
  y : Rat
  z : Rat
deriving DecidableEq, Repr, Inhabited

/-- One child entry of a `DensityNode`: child index, an intermediate
float field, and the density weight (see the `DensityNode` initializer
in `FocalGuiding::prepareVars`). -/
structure DensityChild where
  childIndex : Nat
  accumulated : Rat
  density : Rat
deriving DecidableEq, Repr, Inhabited

/-- A density-grid node: an array of 8 children. -/
structure DensityNode where
  childs : List DensityChild
deriving DecidableEq, Repr, Inhabited

/-- The `initDensities` array from `FocalGuiding::prepareVars`:
one default node whose 8 children are
(0, 0.0, 0.5), (0, 0.0, 0.9), (0, 0.0, 0.5), (0, 0.0, 0.9),
(0, 0.0, 0.5), (0, 0.0, 0.9), (0, 0.0, 0.5), (0, 0.0, 1.0). -/
def initDensities : List DensityNode :=
  [⟨[⟨0, 0, mkRat 1 2⟩,
     ⟨0, 0, mkRat 9 10⟩,
     ⟨0, 0, mkRat 1 2⟩,
     ⟨0, 0, mkRat 9 10⟩,
     ⟨0, 0, mkRat 1 2⟩,
     ⟨0, 0, mkRat 9 10⟩,
     ⟨0, 0, mkRat 1 2⟩,
     ⟨0, 0, 1⟩]⟩]

/-- An input/output channel declaration (`ChannelDesc`): render-graph
channel name, shader variable name, optional flag. -/
structure ChannelDesc where
  name : String
  texname : String
  optionalChannel : Bool
deriving DecidableEq, Repr

/-- The constant `kInputViewDir = "viewW"`. -/
def kInputViewDir : String := "viewW"

/-- The `kInputChannels` of FocalGuiding: required vbuffer, optional viewW. -/
def kInputChannels : List ChannelDesc :=
  [⟨"vbuffer", "gVBuffer", false⟩,
   ⟨kInputViewDir, "gViewW", true⟩]

/-- The `kOutputChannels` of FocalGuiding: the color output. -/
def kOutputChannels : List ChannelDesc :=
  [⟨"color", "gOutputColor", false⟩]

/-- The scene attributes the passes consult. -/
structure Scene where
  geometryChanged : Bool
  hasCustomPrimitives : Bool
  hasTriangleMesh : Bool
  useEmissiveLights : Bool
  apertureRadius : Rat
  sceneDefines : List String
  geometryCount : Nat
deriving DecidableEq, Repr

/-- Per-frame render data: which channels have a connected (non-null)
resource, and the default texture dimensions. -/
structure RenderData where
  connected : List String
  dimX : Nat
  dimY : Nat
deriving DecidableEq, Repr

/-- Host-API side effects a pass can issue during one call. -/
inductive Effect where
  | clearTexture (name : String)
  | clearFbo
  | logWarning (msg : String)
  | prepareLightCollection
  | setConstant (name : String)
  | bindTexture (texname : String)
  | bindBuffer (name : String)
  | dictWrite (key : String)
  | raytraceDispatch (x y z : Nat)
  | rasterizeDraw
  | logRay (i : Nat)
deriving DecidableEq, Repr

/-- Errors: the `RuntimeError` throw in `FocalGuiding::execute`, null
dereferences, failed `FALCOR_ASSERT`s, and an out-of-range buffer read. -/
inductive ExecErr where
  | geometryChanged
  | derefNullProgram
  | derefNullVars
  | assertSceneMissing
  | assertProgramMissing
  | assertVarsMissing
  | assertBadDims
  | bufferOutOfRange
deriving DecidableEq, Repr

/-- True exactly for the effects that are a draw or a ray dispatch. -/
def Effect.isDrawOrDispatch : Effect → Bool
  | .raytraceDispatch _ _ _ => true
  | .rasterizeDraw => true
  | _ => false

/-- True exactly for per-record decode/log effects. -/
def Effect.isLogRay : Effect → Bool
  | .logRay _ => true
  | _ => false

/-- A ray-tracing program; `createdAt` is the creation stamp, `defines`
the accumulated shader defines, `typeConformancesSet` records the
`setTypeConformances` call in `prepareVars`. -/
structure RtProgram where
  createdAt : Nat
  defines : List String
  typeConformancesSet : Bool
deriving DecidableEq, Repr

/-- The shader binding table created by `RtBindingTable::create(2, 2,
geometryCount)` in `FocalGuiding::setScene`. -/
structure RtBindingTable where
  createdAt : Nat
  rayTypeCount : Nat
  missCount : Nat
  geometryCount : Nat
deriving DecidableEq, Repr

/-- A ray-tracing program-variables object; it records the creation
stamp of the program it was compiled against. -/
structure RtVars where
  createdAt : Nat
  programCreatedAt : Nat
deriving DecidableEq, Repr

/-- The structured buffer `mNodes` created in `prepareVars`. -/
structure NodesBuffer where
  size : Nat
  initData : List DensityNode
deriving DecidableEq, Repr

/-- The `mTracer` member bundle of FocalGuiding. -/
structure FGTracer where
  pProgram : Option RtProgram
  pBindingTable : Option RtBindingTable
  pVars : Option RtVars
deriving DecidableEq, Repr

/-- The mutable state of a FocalGuiding pass, plus the creation
counter used to stamp freshly created GPU objects. -/
structure FGState where
  mpScene : Option Scene
  tracer : FGTracer
  mNodes : Option NodesBuffer
  mNodesSize : Nat
  counter : Nat
deriving DecidableEq, Repr

/-- Constructor `FocalGuiding::FocalGuiding`: the constructor touches no pipeline
state; `mNodesSize` keeps its header default (not part of src). -/
def FocalGuiding.construct (nodesSize : Nat) : FGState :=
  ⟨none, ⟨none, none, none⟩, none, nodesSize, 0⟩

/-- Model of `FocalGuiding::setScene`: null out program, binding table and vars,
store the new scene; for a non-null scene warn about custom primitives,
create the binding table (2 ray types, 2 miss shaders, geometry count)
and create the program from the scene defines. -/
def FocalGuiding.setScene (s : FGState) (pScene : Option Scene) :
    FGState × List Effect :=
  let s1 : FGState := { s with tracer := ⟨none, none, none⟩, mpScene := pScene }
  match pScene with
  | none => (s1, [])
  | some sc =>
    let warn : List Effect :=
      if sc.hasCustomPrimitives then
        [Effect.logWarning "custom primitives unsupported"] else []
    let sbt : RtBindingTable := ⟨s1.counter, 2, 2, sc.geometryCount⟩
    let prog : RtProgram := ⟨s1.counter + 1, sc.sceneDefines, false⟩
    ({ s1 with
        tracer := ⟨some prog, some sbt, none⟩,
        counter := s1.counter + 2 }, warn)

/-- Model of `FocalGuiding::prepareVars`: assert scene and program, set type
conformances, create the vars object for the current program, and
create the `mNodes` structured buffer initialized with
`initDensities`. -/
def FocalGuiding.prepareVars (s : FGState) : Except ExecErr FGState :=
  match s.mpScene with
  | none => .error .assertSceneMissing
  | some _ =>
    match s.tracer.pProgram with
    | none => .error .assertProgramMissing
    | some prog =>
      let prog1 : RtProgram := { prog with typeConformancesSet := true }
      let vars : RtVars := ⟨s.counter, prog1.createdAt⟩
      let nodes : NodesBuffer := ⟨s.mNodesSize, initDensities⟩
      .ok { s with
              tracer := ⟨some prog1, s.tracer.pBindingTable, some vars⟩,
              mNodes := some nodes,
              counter := s.counter + 1 }

/-- Model of `getValidResourceDefines`: one define per channel recording whether
its resource is connected this frame. -/
def getValidResourceDefines (channels : List ChannelDesc)
    (rd : RenderData) : List String :=
  channels.map fun c =>
    if rd.connected.contains c.name then
      "is_valid_" ++ c.texname ++ "=1"
    else
      "is_valid_" ++ c.texname ++ "=0"

/-- The outcome of one `execute` call: an error (if a throw, failed
assert or null dereference occurred), the state after the call, and
the effects emitted before stopping. -/
structure FGOutcome where
  err : Option ExecErr
  state : FGState
  effects : List Effect
deriving DecidableEq, Repr

/-- Model of `FocalGuiding::execute`, in source order: null scene clears the
connected declared outputs and returns; a geometry change throws;
emissive lights request the light collection; missing view direction
under depth of field logs a warning; the valid-resource defines are
added; vars are prepared lazily and asserted; constants are set, the
nodes buffer is published to the dictionary, I/O textures and the
nodes buffer are bound; the dispatch dimensions are asserted positive
and one ray dispatch of (dimX, dimY, 1) is issued. -/
def FocalGuiding.execute (s : FGState) (rd : RenderData) : FGOutcome :=
  match s.mpScene with
  | none =>
    ⟨none, s, kOutputChannels.filterMap fun c =>
      if rd.connected.contains c.name then
        some (Effect.clearTexture c.name) else none⟩
  | some sc =>
    if sc.geometryChanged then ⟨some .geometryChanged, s, []⟩
    else
      let effsLight : List Effect :=
        if sc.useEmissiveLights then [Effect.prepareLightCollection] else []
      let effsDof : List Effect :=
        if 0 < sc.apertureRadius ∧ ¬ rd.connected.contains kInputViewDir then
          [Effect.logWarning "depth of field requires viewW input"] else []
      match s.tracer.pProgram with
      | none => ⟨some .derefNullProgram, s, effsLight ++ effsDof⟩
      | some prog =>
        let prog1 : RtProgram :=
          { prog with defines := prog.defines
              ++ getValidResourceDefines kInputChannels rd
              ++ getValidResourceDefines kOutputChannels rd }
        let s1 : FGState :=
          { s with tracer := { s.tracer with pProgram := some prog1 } }
        let afterVars : Except ExecErr FGState :=
          if s1.tracer.pVars.isNone then FocalGuiding.prepareVars s1 else .ok s1
        match afterVars with
        | .error e => ⟨some e, s1, effsLight ++ effsDof⟩
        | .ok s2 =>
          match s2.tracer.pVars with
          | none => ⟨some .assertVarsMissing, s2, effsLight ++ effsDof⟩
          | some _ =>
            let effsMid : List Effect :=
              [Effect.setConstant "gNodesSize",
               Effect.setConstant "gSceneBoundsMin",
               Effect.setConstant "gSceneBoundsMax",
               Effect.dictWrite "gNodes"]
              ++ ((kInputChannels ++ kOutputChannels).filterMap fun c =>
                    if c.texname = "" then none
                    else some (Effect.bindTexture c.texname))
              ++ [Effect.bindBuffer "gNodes"]
            if rd.dimX = 0 ∨ rd.dimY = 0 then
              ⟨some .assertBadDims, s2, effsLight ++ effsDof ++ effsMid⟩
            else
              ⟨none, s2, effsLight ++ effsDof ++ effsMid
                ++ [Effect.raytraceDispatch rd.dimX rd.dimY 1]⟩

/-- A graphics program (raster passes); `createdAt` is the creation
stamp and `defines` the accumulated shader defines. -/
structure GProgram where
  createdAt : Nat
  defines : List String
deriving DecidableEq, Repr

/-- A graphics program-variables object, stamped with its creation and
with the creation stamp of the program whose reflector built it. -/
structure GVars where
  createdAt : Nat
  programCreatedAt : Nat
deriving DecidableEq, Repr

/-- One line record of the shared ray buffer (`GuidedRayLine`): two
endpoint positions and a color. -/
structure GuidedRayLine where
  pos1 : Float3
  pos2 : Float3
  color : Float3
deriving DecidableEq, Repr

/-- The mutable state of a GuidedRayViz pass. Header defaults:
`mGuidedRaysSize = 10`, `mComputeRays = true`, null buffer and vars. -/
structure GRVState where
  mpScene : Option Scene
  mpProgram : GProgram
  mpVars : Option GVars
  mGuidedRaysSize : Nat
  mGuidedRays : Option (List GuidedRayLine)
  mComputeRays : Bool
  counter : Nat
deriving DecidableEq, Repr

/-- Constructor `GuidedRayViz::GuidedRayViz`: the constructor creates the graphics
program (stamp 0) and the wireframe raster state; vars stay null. -/
def GuidedRayViz.construct : GRVState :=
  ⟨none, ⟨0, []⟩, none, 10, none, true, 1⟩

/-- The inter-pass dictionary entries `GuidedRayViz::execute` reads. -/
structure GRVDict where
  gGuidedRaysSize : Nat
  gGuidedRays : Option (List GuidedRayLine)
  gComputeRays : Bool
deriving DecidableEq, Repr

/-- Model of `GuidedRayViz::setScene`: store the scene, add the scene defines to
the existing program when the scene is non-null, and recreate the vars
object unconditionally. -/
def GuidedRayViz.setScene (s : GRVState) (pScene : Option Scene) : GRVState :=
  let s1 : GRVState := { s with mpScene := pScene }
  let s2 : GRVState :=
    match pScene with
    | some sc =>
      { s1 with mpProgram :=
          { s1.mpProgram with
              defines := s1.mpProgram.defines ++ sc.sceneDefines } }
    | none => s1
  { s2 with
      mpVars := some ⟨s2.counter, s2.mpProgram.createdAt⟩,
      counter := s2.counter + 1 }

/-- Model of `GuidedRayViz::generateRaysGeometry`: read `size` line records from
the buffer (`getElements(0, size)`, a fault if the buffer holds fewer)
and log each record's index, endpoints and color; no renderable
geometry is built. -/
def GuidedRayViz.generateRaysGeometry (rays : List GuidedRayLine)
    (size : Nat) : Option (List Effect) :=
  if size ≤ rays.length then some ((List.range size).map Effect.logRay)
  else none

/-- The outcome of one `GuidedRayViz::execute` call. -/
structure GRVOutcome where
  err : Option ExecErr
  state : GRVState
  effects : List Effect
deriving DecidableEq, Repr

/-- Model of `GuidedRayViz::execute`, in source order: a null scene returns at
once (no clear); otherwise the dictionary entries are read into the
members, the rays are decoded and logged when the recompute flag is set
and the buffer handle present, the target FBO is cleared, and — the
scene still being non-null — the color constant is set and the scene is
rasterized. -/
def GuidedRayViz.execute (s : GRVState) (dict : GRVDict) : GRVOutcome :=
  match s.mpScene with
  | none => ⟨none, s, []⟩
  | some _ =>
    let s1 : GRVState :=
      { s with
          mGuidedRaysSize := dict.gGuidedRaysSize,
          mGuidedRays := dict.gGuidedRays,
          mComputeRays := dict.gComputeRays }
    let geomStep : Option (List Effect) :=
      match s1.mComputeRays, s1.mGuidedRays with
      | true, some rays =>
        GuidedRayViz.generateRaysGeometry rays s1.mGuidedRaysSize
      | _, _ => some []
    match geomStep with
    | none => ⟨some .bufferOutOfRange, s1, []⟩
    | some geomEffs =>
      let effs := geomEffs ++ [Effect.clearFbo]
      match s1.mpVars with
      | none => ⟨some .derefNullVars, s1, effs⟩
      | some _ =>
        ⟨none, s1, effs ++ [Effect.setConstant "gColor", Effect.rasterizeDraw]⟩

/-- The mutable state of a MyTestPass pass. -/
structure MTPState where
  mpScene : Option Scene
  mpProgram : GProgram
  mpVars : Option GVars
  counter : Nat
deriving DecidableEq, Repr

/-- Constructor `MyTestPass::MyTestPass`: the constructor creates the graphics
program (stamp 0) and the wireframe raster state; vars stay null. -/
def MyTestPass.construct : MTPState :=
  ⟨none, ⟨0, []⟩, none, 1⟩

/-- Model of `MyTestPass::setScene`: store the scene, add the scene defines to
the existing program when the scene is non-null, and recreate the vars
object unconditionally. -/
def MyTestPass.setScene (s : MTPState) (pScene : Option Scene) : MTPState :=
  let s1 : MTPState := { s with mpScene := pScene }
  let s2 : MTPState :=
    match pScene with
    | some sc =>
      { s1 with mpProgram :=
          { s1.mpProgram with
              defines := s1.mpProgram.defines ++ sc.sceneDefines } }
    | none => s1
  { s2 with
      mpVars := some ⟨s2.counter, s2.mpProgram.createdAt⟩,
      counter := s2.counter + 1 }

/-- The outcome of one `MyTestPass::execute` call. -/
structure MTPOutcome where
  err : Option ExecErr
  state : MTPState
  effects : List Effect
deriving DecidableEq, Repr

/-- Model of `MyTestPass::execute`, in source order: the target FBO is always
cleared; when the scene is non-null the color constant is set and the
scene is rasterized in wireframe. -/
def MyTestPass.execute (s : MTPState) : MTPOutcome :=
  let effs : List Effect := [Effect.clearFbo]
  match s.mpScene with
  | none => ⟨none, s, effs⟩
  | some _ =>
    match s.mpVars with
    | none => ⟨some .derefNullVars, s, effs⟩
    | some _ =>
      ⟨none, s, effs ++ [Effect.setConstant "gColor", Effect.rasterizeDraw]⟩

/-- The output channels each pass declares in `reflect`. -/
def GuidedRayViz.reflectOutputs : List String := ["output"]

/-- MyTestPass declares the single output channel "output". -/
def MyTestPass.reflectOutputs : List String := ["output"]

/-- FocalGuiding declares the outputs of `kOutputChannels`. -/
def FocalGuiding.reflectOutputs : List String :=
  kOutputChannels.map ChannelDesc.name

/-- A plain triangle-mesh scene used as concrete test input. -/
def sceneA : Scene := ⟨false, false, true, false, 0, ["SA"], 3⟩

/-- A second scene with different defines, emissive lights and DOF. -/
def sceneB : Scene := ⟨false, false, true, true, 1, ["SB"], 5⟩

/-- A scene whose update flags report a geometry change. -/
def sceneGeomChanged : Scene := ⟨true, false, true, false, 0, [], 2⟩

/-- A scene containing custom-primitive geometry. -/
def sceneCustom : Scene := ⟨false, true, true, false, 0, [], 2⟩

/-- A scene with depth of field active (positive aperture radius). -/
def sceneDof : Scene := ⟨false, false, true, false, 1, [], 2⟩

/-- Render data with all FocalGuiding channels connected. -/
def rdFull : RenderData := ⟨["vbuffer", "viewW", "color"], 4, 3⟩

/-- Render data with the optional viewW input unconnected. -/
def rdNoView : RenderData := ⟨["vbuffer", "color"], 4, 3⟩

/-- A concrete line record for the shared ray buffer. -/
def rayLineA : GuidedRayLine := ⟨⟨0, 0, 0⟩, ⟨1, 1, 1⟩, ⟨0, 1, 0⟩⟩

/-- C1 counterexample: the claim says every child slot 0 through 6 of
the default density-grid initializer record has density weight 0.5, but
child slot 1 has density weight 0.9, not 0.5. -/
theorem initDensities_child1_not_half :
    ((initDensities.headD ⟨[]⟩).childs.getD 1 ⟨0, 0, 0⟩).density = mkRat 9 10
    ∧ ((initDensities.headD ⟨[]⟩).childs.getD 1 ⟨0, 0, 0⟩).density ≠ mkRat 1 2 := by
  decide

/-- C1 (amended): the single default density-grid initializer record
has density weight 0.5 at child slots 0, 2, 4 and 6, density weight
0.9 at child slots 1, 3 and 5, density weight 1.0 at child slot 7, and
every child slot has child index 0 (and intermediate value 0.0). -/
theorem initDensities_default_record :
    initDensities.length = 1
    ∧ (initDensities.map fun n => n.childs.map DensityChild.density)
        = [[mkRat 1 2, mkRat 9 10, mkRat 1 2, mkRat 9 10,
            mkRat 1 2, mkRat 9 10, mkRat 1 2, 1]]
    ∧ (initDensities.map fun n => n.childs.map DensityChild.childIndex)
        = [[0, 0, 0, 0, 0, 0, 0, 0]]
    ∧ (initDensities.map fun n => n.childs.map DensityChild.accumulated)
        = [[0, 0, 0, 0, 0, 0, 0, 0]] := by
  decide

/-- C2 counterexample: `GuidedRayViz::execute` with a null scene
returns immediately without clearing the "output" channel it declared
in `reflect` — the effect trace is empty, so no clear of any declared
output happens. -/
theorem guidedRayViz_nullScene_no_clear :
    (GuidedRayViz.execute GuidedRayViz.construct ⟨0, none, false⟩).effects = []
    ∧ GuidedRayViz.reflectOutputs ≠ [] := by
  decide

/-- C2 (amended): with a null scene, FocalGuiding clears each connected
declared output and MyTestPass clears its output via the FBO clear,
and neither issues a draw or dispatch; GuidedRayViz issues no draw or
dispatch either, but returns without clearing its declared output. -/
theorem execute_nullScene_behavior :
    (∀ (s : FGState) (rd : RenderData), s.mpScene = none →
      (FocalGuiding.execute s rd).err = none
      ∧ (FocalGuiding.execute s rd).effects
          = kOutputChannels.filterMap (fun c =>
              if rd.connected.contains c.name then
                some (Effect.clearTexture c.name) else none)
      ∧ (FocalGuiding.execute s rd).effects.filter Effect.isDrawOrDispatch = [])
    ∧ (∀ (s : MTPState), s.mpScene = none →
      (MyTestPass.execute s).err = none
      ∧ (MyTestPass.execute s).effects = [Effect.clearFbo]
      ∧ (MyTestPass.execute s).effects.filter Effect.isDrawOrDispatch = [])
    ∧ (∀ (s : GRVState) (d : GRVDict), s.mpScene = none →
      (GuidedRayViz.execute s d).err = none
      ∧ (GuidedRayViz.execute s d).effects = []) := by
  refine ⟨?_, ?_, ?_⟩
  · intro s rd h
    refine ⟨?_, ?_, ?_⟩
    · simp only [FocalGuiding.execute, h]
    · simp only [FocalGuiding.execute, h]
    · simp only [FocalGuiding.execute, h]
      by_cases hc : rd.connected.contains "color"
      · simp [kOutputChannels, hc, Effect.isDrawOrDispatch]
      · simp [kOutputChannels, hc, Effect.isDrawOrDispatch]
  · intro s h
    refine ⟨?_, ?_, ?_⟩ <;> simp [MyTestPass.execute, h, Effect.isDrawOrDispatch]
  · intro s d h
    refine ⟨?_, ?_⟩ <;> simp only [GuidedRayViz.execute, h]

/-- C2 witness: the amended null-scene behavior at concrete states. -/
theorem execute_nullScene_behavior_witness :
    (FocalGuiding.execute (FocalGuiding.construct 16) rdFull).effects
        = [Effect.clearTexture "color"]
    ∧ (MyTestPass.execute MyTestPass.construct).effects = [Effect.clearFbo]
    ∧ (GuidedRayViz.execute GuidedRayViz.construct ⟨0, none, false⟩).effects = [] := by
  refine ⟨?_, ?_, ?_⟩
  · have h := execute_nullScene_behavior.1 (FocalGuiding.construct 16) rdFull rfl
    exact h.2.1.trans (by decide)
  · exact (execute_nullScene_behavior.2.1 MyTestPass.construct rfl).2.1
  · exact (execute_nullScene_behavior.2.2 GuidedRayViz.construct ⟨0, none, false⟩ rfl).2

/-- C3 counterexample: with a non-null scene but the recompute flag
unset and no buffer handle, `GuidedRayViz::execute` still issues the
frame's draw call — the claim that "if either is missing it draws
nothing" is false. -/
theorem guidedRayViz_draw_without_buffer :
    ((GuidedRayViz.execute
        (GuidedRayViz.setScene GuidedRayViz.construct (some sceneA))
        ⟨0, none, false⟩).effects.contains Effect.rasterizeDraw) = true := by
  decide

/-- C3 (amended): with a non-null scene and vars, the pass decodes and
logs the `count` line records before the frame's draw call exactly when
the recompute flag is set and the buffer handle present (it builds no
renderable geometry from them); when the flag is unset or the buffer
handle missing it skips the decode but still clears and draws; and
decoding `count = 0` completes without fault with zero decoded-record
effects. -/
theorem guidedRayViz_decode_then_draw :
    ∀ (s : GRVState) (d : GRVDict) (sc : Scene),
      s.mpScene = some sc → s.mpVars.isSome = true →
      ((d.gComputeRays = true → ∀ rays, d.gGuidedRays = some rays →
          d.gGuidedRaysSize ≤ rays.length →
          (GuidedRayViz.execute s d).err = none
          ∧ (GuidedRayViz.execute s d).effects
              = (List.range d.gGuidedRaysSize).map Effect.logRay
                ++ [Effect.clearFbo, Effect.setConstant "gColor",
                    Effect.rasterizeDraw])
      ∧ ((d.gComputeRays = false ∨ d.gGuidedRays = none) →
          (GuidedRayViz.execute s d).err = none
          ∧ (GuidedRayViz.execute s d).effects
              = [Effect.clearFbo, Effect.setConstant "gColor",
                 Effect.rasterizeDraw])
      ∧ (d.gGuidedRaysSize = 0 →
          (GuidedRayViz.execute s d).err = none
          ∧ (GuidedRayViz.execute s d).effects.filter Effect.isLogRay
              = [Effect.clearFbo, Effect.setConstant "gColor",
                 Effect.rasterizeDraw].filter Effect.isLogRay)) := by
  intro s d sc hs hv
  obtain ⟨v, hv⟩ := Option.isSome_iff_exists.mp hv
  obtain ⟨n, rayOpt, flag⟩ := d
  refine ⟨?_, ?_, ?_⟩
  · rintro hflag rays hrays hlen
    subst hflag; subst hrays
    simp only [GuidedRayViz.execute, GuidedRayViz.generateRaysGeometry, hs, hv,
      if_pos hlen]
    exact ⟨trivial, by simp⟩
  · rintro (hflag | hrays)
    · subst hflag
      simp only [GuidedRayViz.execute, hs, hv]
      exact ⟨trivial, by simp⟩
    · subst hrays
      cases flag <;>
        · simp only [GuidedRayViz.execute, hs, hv]
          exact ⟨trivial, by simp⟩
  · rintro rfl
    cases flag
    · simp only [GuidedRayViz.execute, hs, hv]
      exact ⟨trivial, by simp⟩
    · cases rayOpt with
      | none =>
        simp only [GuidedRayViz.execute, hs, hv]
        exact ⟨trivial, by simp⟩
      | some rays =>
        simp only [GuidedRayViz.execute, GuidedRayViz.generateRaysGeometry, hs, hv,
          if_pos (Nat.zero_le rays.length)]
        exact ⟨trivial, by simp⟩

/-- C3 witness: decode of two records with the flag set and the buffer
present, at a concrete state. -/
theorem guidedRayViz_decode_then_draw_witness :
    (GuidedRayViz.execute
        (GuidedRayViz.setScene GuidedRayViz.construct (some sceneA))
        ⟨2, some [rayLineA, rayLineA], true⟩).effects
      = [Effect.logRay 0, Effect.logRay 1, Effect.clearFbo,
         Effect.setConstant "gColor", Effect.rasterizeDraw] := by
  have h := ((guidedRayViz_decode_then_draw
      (GuidedRayViz.setScene GuidedRayViz.construct (some sceneA))
      ⟨2, some [rayLineA, rayLineA], true⟩ sceneA rfl (by decide)).1
      rfl [rayLineA, rayLineA] rfl (by decide)).2
  exact h.trans (by decide)

/-- Effects `FocalGuiding::execute` emits between the early checks and
the dispatch-dimension assert. -/
def fgPreDispatchEffects (sc : Scene) (rd : RenderData) : List Effect :=
  (if sc.useEmissiveLights then [Effect.prepareLightCollection] else [])
  ++ (if 0 < sc.apertureRadius ∧ ¬ rd.connected.contains kInputViewDir then
        [Effect.logWarning "depth of field requires viewW input"] else [])
  ++ ([Effect.setConstant "gNodesSize",
       Effect.setConstant "gSceneBoundsMin",
       Effect.setConstant "gSceneBoundsMax",
       Effect.dictWrite "gNodes"]
      ++ ((kInputChannels ++ kOutputChannels).filterMap fun c =>
            if c.texname = "" then none
            else some (Effect.bindTexture c.texname))
      ++ [Effect.bindBuffer "gNodes"])

/-- The program after `execute` adds the valid-resource defines. -/
def fgProgramWithFrameDefines (prog : RtProgram) (rd : RenderData) : RtProgram :=
  { prog with defines := prog.defines
      ++ getValidResourceDefines kInputChannels rd
      ++ getValidResourceDefines kOutputChannels rd }

/-- Unfolding of `FocalGuiding.execute` on the path where vars are
still null: `prepareVars` runs, creates vars and the nodes buffer. -/
lemma fg_execute_eq_of_vars_none (s : FGState) (rd : RenderData) (sc : Scene)
    (prog : RtProgram) (hs : s.mpScene = some sc) (hg : sc.geometryChanged = false)
    (hp : s.tracer.pProgram = some prog) (hv : s.tracer.pVars = none) :
    FocalGuiding.execute s rd =
      (let prog2 : RtProgram :=
        { fgProgramWithFrameDefines prog rd with typeConformancesSet := true }
      let s2 : FGState :=
        { s with
            tracer := ⟨some prog2, s.tracer.pBindingTable,
                       some ⟨s.counter, prog2.createdAt⟩⟩,
            mNodes := some ⟨s.mNodesSize, initDensities⟩,
            counter := s.counter + 1 }
      if rd.dimX = 0 ∨ rd.dimY = 0 then
        ⟨some .assertBadDims, s2, fgPreDispatchEffects sc rd⟩
      else
        ⟨none, s2, fgPreDispatchEffects sc rd
          ++ [Effect.raytraceDispatch rd.dimX rd.dimY 1]⟩) := by
  simp only [FocalGuiding.execute, FocalGuiding.prepareVars, hs, hg, hp, hv,
    fgPreDispatchEffects, fgProgramWithFrameDefines, Option.isNone_none,
    if_true, Bool.false_eq_true, if_false]

/-- Unfolding of `FocalGuiding.execute` on the path where vars already
exist: no `prepareVars` call, only the define update. -/
lemma fg_execute_eq_of_vars_some (s : FGState) (rd : RenderData) (sc : Scene)
    (prog : RtProgram) (v : RtVars) (hs : s.mpScene = some sc)
    (hg : sc.geometryChanged = false)
    (hp : s.tracer.pProgram = some prog) (hv : s.tracer.pVars = some v) :
    FocalGuiding.execute s rd =
      (let s1 : FGState :=
        { s with tracer :=
            { s.tracer with pProgram := some (fgProgramWithFrameDefines prog rd) } }
      if rd.dimX = 0 ∨ rd.dimY = 0 then
        ⟨some .assertBadDims, s1, fgPreDispatchEffects sc rd⟩
      else
        ⟨none, s1, fgPreDispatchEffects sc rd
          ++ [Effect.raytraceDispatch rd.dimX rd.dimY 1]⟩) := by
  simp only [FocalGuiding.execute, hs, hg, hp, hv,
    fgPreDispatchEffects, fgProgramWithFrameDefines, Option.isNone_some,
    Bool.false_eq_true, if_false]

/-- When vars enter `execute` as null, any vars present afterwards were
compiled against the program present afterwards. -/
lemma fg_execute_vars_fresh (s : FGState) (rd : RenderData)
    (hv : s.tracer.pVars = none) :
    ∀ p v, (FocalGuiding.execute s rd).state.tracer.pProgram = some p →
      (FocalGuiding.execute s rd).state.tracer.pVars = some v →
      v.programCreatedAt = p.createdAt := by
  intro p v hp2 hv2
  cases hscene : s.mpScene with
  | none =>
    simp only [FocalGuiding.execute, hscene] at hv2
    simp [hv] at hv2
  | some sc =>
    by_cases hg : sc.geometryChanged = true
    · simp only [FocalGuiding.execute, hscene, hg, if_true] at hv2
      simp [hv] at hv2
    · rw [Bool.not_eq_true] at hg
      cases hprog : s.tracer.pProgram with
      | none =>
        simp only [FocalGuiding.execute, hscene, hg, hprog,
          Bool.false_eq_true, if_false] at hv2
        simp [hv] at hv2
      | some prog =>
        rw [fg_execute_eq_of_vars_none s rd sc prog hscene hg hprog hv] at hp2 hv2
        by_cases hd : rd.dimX = 0 ∨ rd.dimY = 0 <;>
          · simp only [hd, if_true, if_false, reduceIte] at hp2 hv2
            obtain rfl : _ = p := Option.some.inj hp2
            obtain rfl : _ = v := Option.some.inj hv2
            rfl

/-- C4: every `FocalGuiding::setScene` call on a pass with a bound
scene clears vars; with a null new scene it clears program, binding
table and vars together and the next `execute` only clears outputs
(touching no pipeline object); with a non-null new scene program and
binding table are created afresh in the call; and any vars the next
`execute` establishes were compiled against the program it holds then,
never a stale one. -/
theorem focalGuiding_setScene_clears_pipeline :
    ∀ (s : FGState) (ps : Option Scene), s.mpScene.isSome = true →
      ((FocalGuiding.setScene s ps).1.tracer.pVars = none)
      ∧ (ps = none →
          (FocalGuiding.setScene s ps).1.tracer = ⟨none, none, none⟩
          ∧ ∀ rd, (FocalGuiding.execute (FocalGuiding.setScene s ps).1 rd).err = none
            ∧ (FocalGuiding.execute (FocalGuiding.setScene s ps).1 rd).state
                = (FocalGuiding.setScene s ps).1
            ∧ ∀ e ∈ (FocalGuiding.execute (FocalGuiding.setScene s ps).1 rd).effects,
                ∃ n, e = Effect.clearTexture n)
      ∧ (∀ sc, ps = some sc →
          ∃ p t, (FocalGuiding.setScene s ps).1.tracer.pProgram = some p
            ∧ (FocalGuiding.setScene s ps).1.tracer.pBindingTable = some t
            ∧ s.counter ≤ p.createdAt ∧ s.counter ≤ t.createdAt)
      ∧ (∀ rd p v,
          (FocalGuiding.execute (FocalGuiding.setScene s ps).1 rd).state.tracer.pProgram
              = some p →
          (FocalGuiding.execute (FocalGuiding.setScene s ps).1 rd).state.tracer.pVars
              = some v →
          v.programCreatedAt = p.createdAt) := by
  intro s ps _
  have hvars : (FocalGuiding.setScene s ps).1.tracer.pVars = none := by
    cases ps <;> rfl
  refine ⟨hvars, ?_, ?_, ?_⟩
  · rintro rfl
    refine ⟨rfl, ?_⟩
    intro rd
    refine ⟨rfl, rfl, ?_⟩
    intro e he
    simp only [FocalGuiding.execute, FocalGuiding.setScene] at he
    simp [kOutputChannels] at he
    exact ⟨"color", he.2.symm⟩
  · rintro sc rfl
    exact ⟨_, _, rfl, rfl, Nat.le_succ s.counter, Nat.le_refl s.counter⟩
  · intro rd p v hp hv
    exact fg_execute_vars_fresh _ rd hvars p v hp hv

/-- C4 witness: clearing at a concrete bound state, with a null and a
non-null follow-up scene. -/
theorem focalGuiding_setScene_clears_pipeline_witness :
    ((FocalGuiding.setScene
        (FocalGuiding.setScene (FocalGuiding.construct 16) (some sceneA)).1
        none).1.tracer = ⟨none, none, none⟩)
    ∧ ((FocalGuiding.setScene
        (FocalGuiding.setScene (FocalGuiding.construct 16) (some sceneA)).1
        (some sceneB)).1.tracer.pVars = none) := by
  constructor
  · exact ((focalGuiding_setScene_clears_pipeline
      (FocalGuiding.setScene (FocalGuiding.construct 16) (some sceneA)).1
      none (by decide)).2.1 rfl).1
  · exact (focalGuiding_setScene_clears_pipeline
      (FocalGuiding.setScene (FocalGuiding.construct 16) (some sceneA)).1
      (some sceneB) (by decide)).1

/-- C5 counterexample: after two consecutive `setScene` calls with
non-null scenes, GuidedRayViz still holds the program created in its
constructor (creation stamp 0), although the second call starts with
creation counter 2 — the shader program is not rebuilt per call. -/
theorem guidedRayViz_setScene_reuses_program :
    ((GuidedRayViz.setScene
        (GuidedRayViz.setScene GuidedRayViz.construct (some sceneA))
        (some sceneB)).mpProgram.createdAt = 0)
    ∧ ((GuidedRayViz.setScene GuidedRayViz.construct (some sceneA)).counter = 2)
    ∧ (GuidedRayViz.construct.mpProgram.createdAt = 0) := by
  decide

/-- C5 (amended): on a non-null `setScene`, FocalGuiding creates a
fresh program (and leaves vars to be recreated), while GuidedRayViz
and MyTestPass keep the constructor's program object — only appending
the scene defines to it — and recreate just the program-variables
object. -/
theorem setScene_rebuild_policy :
    (∀ (s : FGState) (sc : Scene),
      ∃ p, (FocalGuiding.setScene s (some sc)).1.tracer.pProgram = some p
        ∧ s.counter ≤ p.createdAt
        ∧ (FocalGuiding.setScene s (some sc)).1.tracer.pVars = none)
    ∧ (∀ (s : GRVState) (sc : Scene),
      (GuidedRayViz.setScene s (some sc)).mpProgram.createdAt
          = s.mpProgram.createdAt
      ∧ (GuidedRayViz.setScene s (some sc)).mpProgram.defines
          = s.mpProgram.defines ++ sc.sceneDefines
      ∧ ∃ v, (GuidedRayViz.setScene s (some sc)).mpVars = some v
          ∧ s.counter ≤ v.createdAt)
    ∧ (∀ (s : MTPState) (sc : Scene),
      (MyTestPass.setScene s (some sc)).mpProgram.createdAt
          = s.mpProgram.createdAt
      ∧ (MyTestPass.setScene s (some sc)).mpProgram.defines
          = s.mpProgram.defines ++ sc.sceneDefines
      ∧ ∃ v, (MyTestPass.setScene s (some sc)).mpVars = some v
          ∧ s.counter ≤ v.createdAt) := by
  refine ⟨?_, ?_, ?_⟩
  · intro s sc
    exact ⟨_, rfl, Nat.le_succ s.counter, rfl⟩
  · intro s sc
    exact ⟨rfl, rfl, _, rfl, Nat.le_refl s.counter⟩
  · intro s sc
    exact ⟨rfl, rfl, _, rfl, Nat.le_refl s.counter⟩

/-- C6: `FocalGuiding::execute` on a non-null scene whose updates
include a geometry change throws immediately: the error is reported,
the state is untouched (no define update or vars creation) and no
effect (binding, dispatch, or otherwise) is emitted. -/
theorem focalGuiding_geometryChange_throws :
    ∀ (s : FGState) (rd : RenderData) (sc : Scene),
      s.mpScene = some sc → sc.geometryChanged = true →
      FocalGuiding.execute s rd = ⟨some .geometryChanged, s, []⟩ := by
  intro s rd sc hs hg
  simp only [FocalGuiding.execute, hs, hg, if_true]

/-- C6 witness: the geometry-change throw at a concrete bound state. -/
theorem focalGuiding_geometryChange_throws_witness :
    FocalGuiding.execute
        (FocalGuiding.setScene (FocalGuiding.construct 16)
          (some sceneGeomChanged)).1 rdFull
      = ⟨some .geometryChanged,
         (FocalGuiding.setScene (FocalGuiding.construct 16)
           (some sceneGeomChanged)).1, []⟩ :=
  focalGuiding_geometryChange_throws _ rdFull sceneGeomChanged rfl rfl

/-- None of the pre-dispatch effects is a draw or a dispatch. -/
lemma fgPreDispatchEffects_no_dispatch (sc : Scene) (rd : RenderData) :
    (fgPreDispatchEffects sc rd).filter Effect.isDrawOrDispatch = [] := by
  unfold fgPreDispatchEffects
  by_cases h1 : sc.useEmissiveLights = true <;>
    by_cases h2 : 0 < sc.apertureRadius ∧ ¬ rd.connected.contains kInputViewDir <;>
      simp [h1, h2, kInputChannels, kOutputChannels, Effect.isDrawOrDispatch] <;>
        (intro a _ _ ha; subst ha; rfl)

/-- C7: a scene with custom-primitive geometry makes `setScene` log a
warning and still build the program; depth of field with the optional
viewW input unconnected makes `execute` log a warning and still run to
its ray dispatch with no error. -/
theorem focalGuiding_degraded_warnings :
    (∀ (s : FGState) (sc : Scene), sc.hasCustomPrimitives = true →
      Effect.logWarning "custom primitives unsupported"
          ∈ (FocalGuiding.setScene s (some sc)).2
      ∧ (FocalGuiding.setScene s (some sc)).1.tracer.pProgram.isSome = true)
    ∧ (∀ (s : FGState) (rd : RenderData) (sc : Scene) (prog : RtProgram),
        s.mpScene = some sc → sc.geometryChanged = false →
        s.tracer.pProgram = some prog →
        0 < sc.apertureRadius → kInputViewDir ∉ rd.connected →
        rd.dimX ≠ 0 → rd.dimY ≠ 0 →
        (FocalGuiding.execute s rd).err = none
        ∧ Effect.logWarning "depth of field requires viewW input"
            ∈ (FocalGuiding.execute s rd).effects
        ∧ Effect.raytraceDispatch rd.dimX rd.dimY 1
            ∈ (FocalGuiding.execute s rd).effects) := by
  constructor
  · intro s sc hc
    constructor
    · simp only [FocalGuiding.setScene, hc, if_true]
      exact List.mem_singleton.mpr rfl
    · rfl
  · intro s rd sc prog hs hg hp haperture hview hdx hdy
    have hdims : ¬ (rd.dimX = 0 ∨ rd.dimY = 0) := by
      rintro (h | h) <;> [exact hdx h; exact hdy h]
    have hwarn : Effect.logWarning "depth of field requires viewW input"
        ∈ fgPreDispatchEffects sc rd := by
      unfold fgPreDispatchEffects
      have hcond : 0 < sc.apertureRadius ∧ ¬ rd.connected.contains kInputViewDir :=
        ⟨haperture, by simpa using hview⟩
      rw [if_pos hcond]
      simp
    cases hv : s.tracer.pVars with
    | none =>
      rw [fg_execute_eq_of_vars_none s rd sc prog hs hg hp hv]
      simp only [if_neg hdims]
      refine ⟨trivial, ?_, ?_⟩
      · exact List.mem_append.mpr (Or.inl hwarn)
      · exact List.mem_append.mpr (Or.inr (List.mem_singleton.mpr rfl))
    | some v =>
      rw [fg_execute_eq_of_vars_some s rd sc prog v hs hg hp hv]
      simp only [if_neg hdims]
      refine ⟨trivial, ?_, ?_⟩
      · exact List.mem_append.mpr (Or.inl hwarn)
      · exact List.mem_append.mpr (Or.inr (List.mem_singleton.mpr rfl))

/-- C7 witness: the custom-primitive warning and the depth-of-field
warning at concrete states. -/
theorem focalGuiding_degraded_warnings_witness :
    (Effect.logWarning "custom primitives unsupported"
      ∈ (FocalGuiding.setScene (FocalGuiding.construct 16) (some sceneCustom)).2)
    ∧ ((FocalGuiding.execute
          (FocalGuiding.setScene (FocalGuiding.construct 16) (some sceneDof)).1
          rdNoView).err = none)
    ∧ (Effect.logWarning "depth of field requires viewW input"
        ∈ (FocalGuiding.execute
            (FocalGuiding.setScene (FocalGuiding.construct 16) (some sceneDof)).1
            rdNoView).effects) := by
  refine ⟨?_, ?_, ?_⟩
  · exact (focalGuiding_degraded_warnings.1 (FocalGuiding.construct 16)
      sceneCustom rfl).1
  · exact ((focalGuiding_degraded_warnings.2
      (FocalGuiding.setScene (FocalGuiding.construct 16) (some sceneDof)).1
      rdNoView sceneDof ⟨1, [], false⟩ rfl rfl rfl (by decide) (by decide)
      (by decide) (by decide))).1
  · exact ((focalGuiding_degraded_warnings.2
      (FocalGuiding.setScene (FocalGuiding.construct 16) (some sceneDof)).1
      rdNoView sceneDof ⟨1, [], false⟩ rfl rfl rfl (by decide) (by decide)
      (by decide) (by decide))).2.1

/-- C8 counterexample: GuidedRayViz creates its program-variables
object inside `setScene` itself (vars are null out of the constructor
and non-null right after `setScene`), contradicting lazy creation in
`execute`. -/
theorem guidedRayViz_vars_created_in_setScene :
    GuidedRayViz.construct.mpVars = none
    ∧ (GuidedRayViz.setScene GuidedRayViz.construct (some sceneA)).mpVars.isSome
        = true := by
  decide

/-- C8 (amended): FocalGuiding leaves vars null through `setScene` and
creates them lazily in the first `execute` after it; GuidedRayViz and
MyTestPass instead create the vars object inside `setScene` on every
call. -/
theorem vars_creation_policy :
    (∀ (s : FGState) (ps : Option Scene),
        (FocalGuiding.setScene s ps).1.tracer.pVars = none)
    ∧ (∀ (s : FGState) (rd : RenderData) (sc : Scene) (prog : RtProgram),
        s.mpScene = some sc → sc.geometryChanged = false →
        s.tracer.pProgram = some prog → s.tracer.pVars = none →
        (FocalGuiding.execute s rd).state.tracer.pVars.isSome = true)
    ∧ (∀ (s : GRVState) (ps : Option Scene),
        (GuidedRayViz.setScene s ps).mpVars.isSome = true)
    ∧ (∀ (s : MTPState) (ps : Option Scene),
        (MyTestPass.setScene s ps).mpVars.isSome = true) := by
  refine ⟨?_, ?_, ?_, ?_⟩
  · intro s ps
    cases ps <;> rfl
  · intro s rd sc prog hs hg hp hv
    rw [fg_execute_eq_of_vars_none s rd sc prog hs hg hp hv]
    by_cases hd : rd.dimX = 0 ∨ rd.dimY = 0 <;> simp [hd]
  · intro s ps
    cases ps <;> rfl
  · intro s ps
    cases ps <;> rfl

/-- C8 witness: lazy creation for FocalGuiding at a concrete state,
with setScene having left vars null. -/
theorem vars_creation_policy_witness :
    ((FocalGuiding.setScene (FocalGuiding.construct 16) (some sceneA)).1.tracer.pVars
        = none)
    ∧ ((FocalGuiding.execute
          (FocalGuiding.setScene (FocalGuiding.construct 16) (some sceneA)).1
          rdFull).state.tracer.pVars.isSome = true) := by
  constructor
  · exact vars_creation_policy.1 (FocalGuiding.construct 16) (some sceneA)
  · exact vars_creation_policy.2.1
      (FocalGuiding.setScene (FocalGuiding.construct 16) (some sceneA)).1
      rdFull sceneA ⟨1, ["SA"], false⟩ rfl rfl rfl rfl

/-- C9: every `execute` with a non-null scene, no geometry change and a
program in place (dispatch dimensions nonzero) completes without error
and issues exactly one draw-or-dispatch effect: a ray dispatch of the
frame's default target resolution in x and y, and 1 in z. -/
theorem focalGuiding_single_dispatch :
    ∀ (s : FGState) (rd : RenderData) (sc : Scene) (prog : RtProgram),
      s.mpScene = some sc → sc.geometryChanged = false →
      s.tracer.pProgram = some prog →
      rd.dimX ≠ 0 → rd.dimY ≠ 0 →
      (FocalGuiding.execute s rd).err = none
      ∧ (FocalGuiding.execute s rd).effects.filter Effect.isDrawOrDispatch
          = [Effect.raytraceDispatch rd.dimX rd.dimY 1] := by
  intro s rd sc prog hs hg hp hdx hdy
  have hdims : ¬ (rd.dimX = 0 ∨ rd.dimY = 0) := by
    rintro (h | h) <;> [exact hdx h; exact hdy h]
  have hfilter : (fgPreDispatchEffects sc rd
      ++ [Effect.raytraceDispatch rd.dimX rd.dimY 1]).filter Effect.isDrawOrDispatch
      = [Effect.raytraceDispatch rd.dimX rd.dimY 1] := by
    rw [List.filter_append, fgPreDispatchEffects_no_dispatch]
    rfl
  cases hv : s.tracer.pVars with
  | none =>
    rw [fg_execute_eq_of_vars_none s rd sc prog hs hg hp hv]
    simp only [if_neg hdims]
    exact ⟨trivial, hfilter⟩
  | some v =>
    rw [fg_execute_eq_of_vars_some s rd sc prog v hs hg hp hv]
    simp only [if_neg hdims]
    exact ⟨trivial, hfilter⟩

/-- C9 witness: one dispatch sized 4×3×1 at a concrete bound state with
default texture dimensions 4×3. -/
theorem focalGuiding_single_dispatch_witness :
    ((FocalGuiding.execute
        (FocalGuiding.setScene (FocalGuiding.construct 16) (some sceneA)).1
        rdFull).err = none)
    ∧ ((FocalGuiding.execute
        (FocalGuiding.setScene (FocalGuiding.construct 16) (some sceneA)).1
        rdFull).effects.filter Effect.isDrawOrDispatch
          = [Effect.raytraceDispatch 4 3 1]) := by
  have h := focalGuiding_single_dispatch
    (FocalGuiding.setScene (FocalGuiding.construct 16) (some sceneA)).1
    rdFull sceneA ⟨1, ["SA"], false⟩ rfl rfl rfl (by decide) (by decide)
  exact ⟨h.1, h.2.trans (by decide)⟩

/-- The states a FocalGuiding pass can reach through its constructor,
`setScene` and `execute`. -/
inductive FGReachable : FGState → Prop where
  | constructed (n : Nat) : FGReachable (FocalGuiding.construct n)
  | stepScene {s : FGState} (ps : Option Scene) :
      FGReachable s → FGReachable (FocalGuiding.setScene s ps).1
  | stepExec {s : FGState} (rd : RenderData) :
      FGReachable s → FGReachable (FocalGuiding.execute s rd).state

/-- The `execute` call never changes the stored scene or the binding table, and
never discards a program that was present. -/
lemma fg_execute_preserves (s : FGState) (rd : RenderData) :
    (FocalGuiding.execute s rd).state.mpScene = s.mpScene
    ∧ ((FocalGuiding.execute s rd).state.tracer.pProgram.isSome
        = s.tracer.pProgram.isSome)
    ∧ (FocalGuiding.execute s rd).state.tracer.pBindingTable
        = s.tracer.pBindingTable := by
  cases hscene : s.mpScene with
  | none => simp only [FocalGuiding.execute, hscene]; exact ⟨trivial, trivial, trivial⟩
  | some sc =>
    by_cases hg : sc.geometryChanged = true
    · simp only [FocalGuiding.execute, hscene, hg, if_true]
      exact ⟨trivial, trivial, trivial⟩
    · rw [Bool.not_eq_true] at hg
      cases hprog : s.tracer.pProgram with
      | none =>
        simp only [FocalGuiding.execute, hscene, hg, hprog,
          Bool.false_eq_true, if_false]
        exact ⟨trivial, trivial, trivial⟩
      | some prog =>
        cases hv : s.tracer.pVars with
        | none =>
          rw [fg_execute_eq_of_vars_none s rd sc prog hscene hg hprog hv]
          by_cases hd : rd.dimX = 0 ∨ rd.dimY = 0 <;>
            simp [hd, hscene, hprog]
        | some v =>
          rw [fg_execute_eq_of_vars_some s rd sc prog v hscene hg hprog hv]
          by_cases hd : rd.dimX = 0 ∨ rd.dimY = 0 <;>
            simp [hd, hscene, hprog]

/-- Reachability invariant: whenever a scene is bound, the program and
the binding table exist. -/
lemma fg_scene_program_invariant {s : FGState} (h : FGReachable s) :
    s.mpScene.isSome = true →
      s.tracer.pProgram.isSome = true ∧ s.tracer.pBindingTable.isSome = true := by
  induction h with
  | constructed n =>
    intro hsc
    simp [FocalGuiding.construct] at hsc
  | stepScene ps _ _ =>
    cases ps with
    | none => intro hsc; simp [FocalGuiding.setScene] at hsc
    | some sc => intro _; exact ⟨rfl, rfl⟩
  | stepExec rd _ ih =>
    intro hsc
    obtain ⟨hsc2, hprog2, htab2⟩ := fg_execute_preserves _ rd
    rw [hsc2] at hsc
    obtain ⟨h1, h2⟩ := ih hsc
    refine ⟨by rw [hprog2]; exact h1, ?_⟩
    rw [htab2]
    exact h2

/-- With a scene and a program in place, `execute` can only finish
clean, throw for a geometry change, or fail the dispatch-dims assert —
never a prepareVars assert or a null dereference. -/
lemma fg_execute_err_cases (s : FGState) (rd : RenderData) (sc : Scene)
    (prog : RtProgram) (hs : s.mpScene = some sc)
    (hp : s.tracer.pProgram = some prog) :
    (FocalGuiding.execute s rd).err = none
    ∨ (FocalGuiding.execute s rd).err = some .geometryChanged
    ∨ (FocalGuiding.execute s rd).err = some .assertBadDims := by
  by_cases hg : sc.geometryChanged = true
  · right; left
    simp only [FocalGuiding.execute, hs, hg, if_true]
  · rw [Bool.not_eq_true] at hg
    cases hv : s.tracer.pVars with
    | none =>
      rw [fg_execute_eq_of_vars_none s rd sc prog hs hg hp hv]
      by_cases hd : rd.dimX = 0 ∨ rd.dimY = 0
      · right; right; simp [hd]
      · left; simp [hd]
    | some v =>
      rw [fg_execute_eq_of_vars_some s rd sc prog v hs hg hp hv]
      by_cases hd : rd.dimX = 0 ∨ rd.dimY = 0
      · right; right; simp [hd]
      · left; simp [hd]

/-- C10: in every reachable state with a bound scene, the program and
binding table exist, so the `FALCOR_ASSERT`s of `prepareVars` (scene
and program non-null), the post-creation vars assert, and the program
dereference in `execute` can never fail. -/
theorem focalGuiding_assertions_hold :
    ∀ (s : FGState), FGReachable s → ∀ (sc : Scene), s.mpScene = some sc →
      s.tracer.pProgram.isSome = true
      ∧ s.tracer.pBindingTable.isSome = true
      ∧ ∀ (rd : RenderData),
          (FocalGuiding.execute s rd).err ≠ some .assertSceneMissing
          ∧ (FocalGuiding.execute s rd).err ≠ some .assertProgramMissing
          ∧ (FocalGuiding.execute s rd).err ≠ some .assertVarsMissing
          ∧ (FocalGuiding.execute s rd).err ≠ some .derefNullProgram := by
  intro s hreach sc hs
  obtain ⟨hprog, htab⟩ :=
    fg_scene_program_invariant hreach (by rw [hs]; rfl)
  obtain ⟨prog, hp⟩ := Option.isSome_iff_exists.mp hprog
  refine ⟨hprog, htab, ?_⟩
  intro rd
  rcases fg_execute_err_cases s rd sc prog hs hp with h | h | h <;>
    · rw [h]
      exact ⟨by simp, by simp, by simp, by simp⟩

/-- C10 witness: the assert-safety at a concrete reachable bound state. -/
theorem focalGuiding_assertions_hold_witness :
    ((FocalGuiding.setScene (FocalGuiding.construct 16)
        (some sceneA)).1.tracer.pProgram.isSome = true)
    ∧ ((FocalGuiding.execute
          (FocalGuiding.setScene (FocalGuiding.construct 16) (some sceneA)).1
          rdFull).err ≠ some .assertVarsMissing) := by
  have h := focalGuiding_assertions_hold
    (FocalGuiding.setScene (FocalGuiding.construct 16) (some sceneA)).1
    (FGReachable.stepScene (some sceneA) (FGReachable.constructed 16))
    sceneA rfl
  exact ⟨h.1, (h.2.2 rdFull).2.2.1⟩
